import Mathlib

/-!
Shallow embedding of the physics core of `src/simulation.py` (classes
`Vector2D`, `GameObject`, `PhysicsEngine`) and verification of the frozen
claims about it.  Python floats are modelled as real numbers (the spec's
"exact equality over real arithmetic"); Python ints as `ℤ`/`ℕ`.  The in-place
mutation of the object list during the collision pass is modelled by explicit
state passing over `List GameObject`, with bodies addressed by index.  The
random angle drawn in `_get_random_velocity` is the one effect that cannot be
embedded purely; it is passed in as an explicit angle parameter.
-/

set_option linter.unusedVariables false

noncomputable section

/-- Embeds Python's `int(x)` conversion applied to a float: truncation toward
zero (floor for nonnegative arguments, ceiling for negative ones). -/
def pyInt (x : ℝ) : ℤ :=
  if 0 ≤ x then ⌊x⌋ else ⌈x⌉

/-- Embeds the `ObjectType` enum of `simulation.py`. -/
inductive ObjectType where
  | wall
  | center_block
  | red_block
  | blue_block
deriving DecidableEq

/-- Embeds `.value` on the `ObjectType` enum (the string payload of each
member, used by `PhysicsEngine.get_state`). -/
def ObjectType.value : ObjectType → String
  | wall => "wall"
  | center_block => "center_block"
  | red_block => "red_block"
  | blue_block => "blue_block"

/-- Embeds the `Vector2D` dataclass. -/
structure Vector2D where
  x : ℝ
  y : ℝ

/-- Embeds `Vector2D.__add__`. -/
def Vector2D.add (a other : Vector2D) : Vector2D :=
  ⟨a.x + other.x, a.y + other.y⟩

/-- Embeds `Vector2D.__sub__`. -/
def Vector2D.sub (a other : Vector2D) : Vector2D :=
  ⟨a.x - other.x, a.y - other.y⟩

/-- Embeds `Vector2D.__mul__` (vector times scalar). -/
def Vector2D.mulScalar (a : Vector2D) (scalar : ℝ) : Vector2D :=
  ⟨a.x * scalar, a.y * scalar⟩

/-- Embeds `Vector2D.normalize`: divide by the Euclidean length, returning the
zero vector when the length is exactly zero. -/
def Vector2D.normalize (v : Vector2D) : Vector2D :=
  let length := Real.sqrt (v.x ^ 2 + v.y ^ 2)
  if length = 0 then ⟨0, 0⟩ else ⟨v.x / length, v.y / length⟩

/-- Embeds the `GameObject` dataclass. -/
structure GameObject where
  obj_type : ObjectType
  position : Vector2D
  velocity : Vector2D
  size : ℤ
  color : ℤ × ℤ × ℤ
  is_static : Bool

/-- Embeds the 4-tuple `(left, top, right, bottom)` returned by
`GameObject.get_bounds`, with named components. -/
structure Bounds where
  left : ℤ
  top : ℤ
  right : ℤ
  bottom : ℤ

/-- Embeds `GameObject.get_bounds`: `half_size = size // 2` (Python floor
division) and each tuple component is `int(...)` of a float expression. -/
def GameObject.get_bounds (o : GameObject) : Bounds :=
  let half_size := Int.fdiv o.size 2
  ⟨pyInt (o.position.x - (half_size : ℝ)),
   pyInt (o.position.y - (half_size : ℝ)),
   pyInt (o.position.x + (half_size : ℝ)),
   pyInt (o.position.y + (half_size : ℝ))⟩

/-- Embeds `GameObject.check_collision`: the non-strict axis-aligned
separation test on the two bounding boxes. -/
def GameObject.check_collision (o other : GameObject) : Bool :=
  let bounds1 := o.get_bounds
  let bounds2 := other.get_bounds
  !(bounds1.right < bounds2.left || bounds1.left > bounds2.right ||
    bounds1.bottom < bounds2.top || bounds1.top > bounds2.bottom)

/-- Embeds the `PhysicsEngine` attribute state set up by
`PhysicsEngine.__init__`. -/
structure PhysicsEngine where
  grid_size : ℤ
  objects : List GameObject
  time_step : ℕ
  error_count : ℕ
  max_errors : ℕ

/-- Embeds `PhysicsEngine.__init__(grid_size)`: no validation of any kind is
performed on `grid_size`; it is stored verbatim. -/
def PhysicsEngine.new (grid_size : ℤ) : PhysicsEngine :=
  { grid_size := grid_size
    objects := []
    time_step := 0
    error_count := 0
    max_errors := 10 }

/-- Embeds `PhysicsEngine._get_random_velocity`.  In the source the angle is
drawn by `np.random.uniform(0, 2*pi)`; that draw is the only impurity of the
core, so the angle is taken here as an explicit parameter. -/
def PhysicsEngine.get_random_velocity (angle : ℝ) : Vector2D :=
  ⟨Real.cos angle, Real.sin angle⟩

/-- Embeds `PhysicsEngine.initialize_simulation` (name shortened): clears the
body list and repopulates it with 4 walls, the center block, the red block at
`(100, 100)` and the blue block at `(900, 900)` (both literals in the source,
independent of `grid_size`), then resets `time_step` and `error_count`.
The two random velocity angles are passed explicitly. -/
def PhysicsEngine.init_simulation (e : PhysicsEngine) (red_angle blue_angle : ℝ) :
    PhysicsEngine :=
  let wall_thickness : ℤ := 20
  let wall_color : ℤ × ℤ × ℤ := (0, 255, 0)
  { e with
    objects :=
      [⟨ObjectType.wall, ⟨(Int.fdiv e.grid_size 2 : ℤ), (Int.fdiv wall_thickness 2 : ℤ)⟩,
          ⟨0, 0⟩, wall_thickness, wall_color, true⟩,
       ⟨ObjectType.wall, ⟨(Int.fdiv e.grid_size 2 : ℤ), ((e.grid_size - Int.fdiv wall_thickness 2 : ℤ))⟩,
          ⟨0, 0⟩, wall_thickness, wall_color, true⟩,
       ⟨ObjectType.wall, ⟨(Int.fdiv wall_thickness 2 : ℤ), (Int.fdiv e.grid_size 2 : ℤ)⟩,
          ⟨0, 0⟩, wall_thickness, wall_color, true⟩,
       ⟨ObjectType.wall, ⟨((e.grid_size - Int.fdiv wall_thickness 2 : ℤ)), (Int.fdiv e.grid_size 2 : ℤ)⟩,
          ⟨0, 0⟩, wall_thickness, wall_color, true⟩,
       ⟨ObjectType.center_block, ⟨(Int.fdiv e.grid_size 2 : ℤ), (Int.fdiv e.grid_size 2 : ℤ)⟩,
          ⟨0, 0⟩, 50, (0, 255, 0), true⟩,
       ⟨ObjectType.red_block, ⟨100, 100⟩,
          PhysicsEngine.get_random_velocity red_angle, 30, (255, 0, 0), false⟩,
       ⟨ObjectType.blue_block, ⟨900, 900⟩,
          PhysicsEngine.get_random_velocity blue_angle, 30, (0, 0, 255), false⟩]
    time_step := 0
    error_count := 0 }

/-- Embeds the dot product and velocity-reflection code shared verbatim by
`_bounce_off_static` and the per-object loop body of `_bounce_off_mobile`:
`v' = v - 2 (v . normal) normal`, only the velocity is written. -/
def bounce_one (obj : GameObject) (normal : Vector2D) : GameObject :=
  let dot_product := obj.velocity.x * normal.x + obj.velocity.y * normal.y
  { obj with
    velocity := ⟨obj.velocity.x - 2 * dot_product * normal.x,
                 obj.velocity.y - 2 * dot_product * normal.y⟩ }

/-- Embeds `PhysicsEngine._bounce_off_static`: reflect the mobile body's
velocity across the normal from the static body, then push it 2 units along
the normal.  The static body is never written. -/
def bounce_off_static (mobile_obj static_obj : GameObject) : GameObject :=
  let normal := (mobile_obj.position.sub static_obj.position).normalize
  let bounced := bounce_one mobile_obj normal
  { bounced with position := bounced.position.add (normal.mulScalar 2) }

/-- Embeds `PhysicsEngine._bounce_off_mobile`: both bodies reflect their own
velocity across the single normal from `obj2` to `obj1`, then `obj1` moves by
`+2 * normal` and `obj2` by `-2 * normal`.  Returns the updated pair
`(obj1, obj2)`. -/
def bounce_off_mobile (obj1 obj2 : GameObject) : GameObject × GameObject :=
  let normal := (obj1.position.sub obj2.position).normalize
  let b1 := bounce_one obj1 normal
  let b2 := bounce_one obj2 normal
  let separation := normal.mulScalar 2
  ({ b1 with position := b1.position.add separation },
   { b2 with position := b2.position.sub separation })

/-- Embeds `PhysicsEngine._resolve_collision` acting on the object list at
indices `i` (the mobile `obj1`) and `j` (the collider `obj2`): the in-place
field writes become `List.set` at those indices. -/
def resolve_collision (objs : List GameObject) (i j : ℕ) (obj1 obj2 : GameObject) :
    List GameObject :=
  if obj2.is_static then
    objs.set i (bounce_off_static obj1 obj2)
  else
    let p := bounce_off_mobile obj1 obj2
    (objs.set i p.1).set j p.2

/-- Embeds one iteration of the inner loop of
`PhysicsEngine._handle_collisions`: skip when `i == j`, re-read both bodies
from the current list, and resolve when `check_collision` holds. -/
def collide_inner (objs : List GameObject) (i j : ℕ) : List GameObject :=
  if i = j then objs
  else
    match objs[i]?, objs[j]? with
    | some obj1, some obj2 =>
        if obj1.check_collision obj2 then resolve_collision objs i j obj1 obj2 else objs
    | _, _ => objs

/-- Embeds one iteration of the outer loop of
`PhysicsEngine._handle_collisions`: static bodies are skipped as `obj1`;
otherwise the inner loop runs over all indices of the current list. -/
def collide_outer (objs : List GameObject) (i : ℕ) : List GameObject :=
  match objs[i]? with
  | some obj1 =>
      if obj1.is_static then objs
      else (List.range objs.length).foldl (fun acc j => collide_inner acc i j) objs
  | none => objs

/-- Embeds `PhysicsEngine._handle_collisions`: the double loop over ordered
index pairs, each resolution immediately visible to later iterations. -/
def PhysicsEngine.handle_collisions (e : PhysicsEngine) : PhysicsEngine :=
  { e with objects := (List.range e.objects.length).foldl collide_outer e.objects }

/-- Embeds the integration prefix of `PhysicsEngine.update`: increment
`time_step`, then `position += velocity` for every non-static body. -/
def PhysicsEngine.integrate (e : PhysicsEngine) : PhysicsEngine :=
  { e with
    time_step := e.time_step + 1
    objects := e.objects.map fun obj =>
      if obj.is_static then obj else { obj with position := obj.position.add obj.velocity } }

/-- Embeds the first `if`/`elif` block of the `_enforce_boundaries` loop body:
clamp the x axis and force the x velocity component inward via `abs`. -/
def clamp_x (grid_size half_size : ℤ) (obj : GameObject) : GameObject :=
  if obj.position.x - (half_size : ℝ) < 0 then
    { obj with position := ⟨(half_size : ℝ), obj.position.y⟩,
               velocity := ⟨|obj.velocity.x|, obj.velocity.y⟩ }
  else if obj.position.x + (half_size : ℝ) > (grid_size : ℝ) then
    { obj with position := ⟨(grid_size : ℝ) - (half_size : ℝ), obj.position.y⟩,
               velocity := ⟨-|obj.velocity.x|, obj.velocity.y⟩ }
  else obj

/-- Embeds the second `if`/`elif` block of the `_enforce_boundaries` loop
body: clamp the y axis, reading the position left by the x clamp. -/
def clamp_y (grid_size half_size : ℤ) (obj : GameObject) : GameObject :=
  if obj.position.y - (half_size : ℝ) < 0 then
    { obj with position := ⟨obj.position.x, (half_size : ℝ)⟩,
               velocity := ⟨obj.velocity.x, |obj.velocity.y|⟩ }
  else if obj.position.y + (half_size : ℝ) > (grid_size : ℝ) then
    { obj with position := ⟨obj.position.x, (grid_size : ℝ) - (half_size : ℝ)⟩,
               velocity := ⟨obj.velocity.x, -|obj.velocity.y|⟩ }
  else obj

/-- Embeds the per-object body of `PhysicsEngine._enforce_boundaries`: static
bodies are skipped; otherwise the x-axis block runs, then the y-axis block on
its result. -/
def enforce_boundary (grid_size : ℤ) (obj : GameObject) : GameObject :=
  if obj.is_static then obj
  else clamp_y grid_size (Int.fdiv obj.size 2) (clamp_x grid_size (Int.fdiv obj.size 2) obj)

/-- Embeds `PhysicsEngine._enforce_boundaries` over the whole object list. -/
def PhysicsEngine.enforce_boundaries (e : PhysicsEngine) : PhysicsEngine :=
  { e with objects := e.objects.map (enforce_boundary e.grid_size) }

/-- Embeds `PhysicsEngine.update` (the spec's `step()`): increment the tick
and integrate, then handle collisions, then enforce boundaries.  The
`except` arm of the source can only fire on runtime exceptions, which the
pure arithmetic model has none of. -/
def PhysicsEngine.update (e : PhysicsEngine) : PhysicsEngine :=
  e.integrate.handle_collisions.enforce_boundaries

/-- Embeds one per-object entry of the dict built by
`PhysicsEngine.get_state`: exactly the six fields emitted by the source. -/
structure ObjState where
  type : String
  position : Vector2D
  velocity : Vector2D
  size : ℤ
  color : ℤ × ℤ × ℤ
  is_static : Bool

/-- Embeds the top-level dict built by `PhysicsEngine.get_state`: the source
emits `time_step`, `grid_size`, `error_count` and the object list. -/
structure SimState where
  time_step : ℕ
  grid_size : ℤ
  error_count : ℕ
  objects : List ObjState

/-- Embeds the per-object projection inside `PhysicsEngine.get_state`. -/
def objStateOf (obj : GameObject) : ObjState :=
  ⟨obj.obj_type.value, obj.position, obj.velocity, obj.size, obj.color, obj.is_static⟩

/-- Embeds `PhysicsEngine.get_state`. -/
def PhysicsEngine.get_state (e : PhysicsEngine) : SimState :=
  ⟨e.time_step, e.grid_size, e.error_count, e.objects.map objStateOf⟩

/-- Magnitude-squared of a velocity vector (`x**2 + y**2` as in the source's
`normalize`). -/
def speedSq (v : Vector2D) : ℝ := v.x ^ 2 + v.y ^ 2

/-- Euclidean magnitude of a velocity vector. -/
def magnitude (v : Vector2D) : ℝ := Real.sqrt (speedSq v)

/-- Relation between a body and its possible successor within one `update`:
identity fields are untouched, speed is conserved, and a static body is
entirely untouched. -/
def BodySim (b b' : GameObject) : Prop :=
  b'.obj_type = b.obj_type ∧ b'.size = b.size ∧ b'.color = b.color ∧
  b'.is_static = b.is_static ∧ speedSq b'.velocity = speedSq b.velocity ∧
  (b.is_static = true → b' = b)

/-- Pointwise lifting of `BodySim` to the object list, with length
preservation. -/
def ListSim (l l' : List GameObject) : Prop :=
  l'.length = l.length ∧
  ∀ (k : ℕ) (b : GameObject), l[k]? = some b → ∃ b', l'[k]? = some b' ∧ BodySim b b'

theorem BodySim.self (b : GameObject) : BodySim b b :=
  ⟨Eq.refl _, Eq.refl _, Eq.refl _, Eq.refl _, Eq.refl _, fun _ => Eq.refl _⟩

theorem BodySim.comp {a b c : GameObject} (h1 : BodySim a b) (h2 : BodySim b c) :
    BodySim a c := by
  obtain ⟨t1, s1, c1, st1, v1, e1⟩ := h1
  obtain ⟨t2, s2, c2, st2, v2, e2⟩ := h2
  refine ⟨t2.trans t1, s2.trans s1, c2.trans c1, st2.trans st1, v2.trans v1, fun h => ?_⟩
  have hb : b = a := e1 h
  have : c = b := e2 (by rw [hb]; exact h)
  rw [this, hb]

theorem ListSim.refl (l : List GameObject) : ListSim l l :=
  ⟨Eq.refl _, fun _ b h => ⟨b, h, BodySim.self b⟩⟩

theorem ListSim.chain {a b c : List GameObject} (h1 : ListSim a b) (h2 : ListSim b c) :
    ListSim a c := by
  refine ⟨h2.1.trans h1.1, fun k x hx => ?_⟩
  obtain ⟨y, hy, hxy⟩ := h1.2 k x hx
  obtain ⟨z, hz, hyz⟩ := h2.2 k y hy
  exact ⟨z, hz, hxy.comp hyz⟩

theorem ListSim.get_total {l l' : List GameObject} (h : ListSim l l') {k : ℕ}
    {b' : GameObject} (hb' : l'[k]? = some b') : ∃ b, l[k]? = some b ∧ BodySim b b' := by
  have hk : k < l.length := by
    by_contra hk
    have hlen : l'.length = l.length := h.1
    have hnone : l'[k]? = none := List.getElem?_eq_none_iff.mpr (by omega)
    rw [hnone] at hb'
    cases hb'
  obtain ⟨b, hb⟩ : ∃ b, l[k]? = some b := ⟨l[k], List.getElem?_eq_getElem hk⟩
  obtain ⟨b2, hb2, hsim⟩ := h.2 k b hb
  rw [hb'] at hb2
  refine ⟨b, hb, ?_⟩
  injection hb2 with hh
  rw [hh]
  exact hsim

theorem ListSim.static_of {l l' : List GameObject} (h : ListSim l l') {k : ℕ}
    (hmob : ∀ b, l[k]? = some b → b.is_static = false) :
    ∀ b', l'[k]? = some b' → b'.is_static = false := by
  intro b' hb'
  obtain ⟨b, hb, hsim⟩ := h.get_total hb'
  rw [hsim.2.2.2.1]
  exact hmob b hb

theorem listSim_set {l : List GameObject} {i : ℕ} {b b' : GameObject}
    (hb : l[i]? = some b) (hsim : BodySim b b') : ListSim l (l.set i b') := by
  refine ⟨by simp, fun k x hx => ?_⟩
  by_cases hk : i = k
  · subst hk
    have hi : i < l.length := by
      by_contra hi
      have hnone : l[i]? = none := List.getElem?_eq_none_iff.mpr (by omega)
      rw [hnone] at hb
      cases hb
    refine ⟨b', by simp [List.getElem?_set_self', hi], ?_⟩
    rw [hb] at hx
    injection hx with hh
    rw [← hh]
    exact hsim
  · exact ⟨x, by rw [List.getElem?_set_ne hk]; exact hx, BodySim.self x⟩

theorem listSim_map {l : List GameObject} {f : GameObject → GameObject}
    (hf : ∀ b, BodySim b (f b)) : ListSim l (l.map f) := by
  refine ⟨by simp, fun k b hb => ?_⟩
  refine ⟨f b, ?_, hf b⟩
  rw [List.getElem?_map, hb, Option.map_some']

theorem foldl_sim {f : List GameObject → ℕ → List GameObject}
    (hf : ∀ objs i, ListSim objs (f objs i)) :
    ∀ (is : List ℕ) (objs : List GameObject), ListSim objs (is.foldl f objs) := by
  intro is
  induction is with
  | nil => exact fun objs => ListSim.refl objs
  | cons i is ih =>
    intro objs
    exact (hf objs i).chain (ih (f objs i))

/-- The normal produced by `Vector2D.normalize` is a unit vector or the zero
vector. -/
theorem normalize_unit_or_zero (v : Vector2D) :
    speedSq v.normalize = 1 ∨ v.normalize = ⟨0, 0⟩ := by
  simp only [Vector2D.normalize]
  by_cases h : Real.sqrt (v.x ^ 2 + v.y ^ 2) = 0
  · right; rw [if_pos h]
  · left
    rw [if_neg h]
    have hnn : (0 : ℝ) ≤ v.x ^ 2 + v.y ^ 2 := by positivity
    have hsq : Real.sqrt (v.x ^ 2 + v.y ^ 2) ^ 2 = v.x ^ 2 + v.y ^ 2 := Real.sq_sqrt hnn
    have hne : v.x ^ 2 + v.y ^ 2 ≠ 0 := fun h0 => h (by rw [h0, Real.sqrt_zero])
    show (v.x / Real.sqrt (v.x ^ 2 + v.y ^ 2)) ^ 2 +
        (v.y / Real.sqrt (v.x ^ 2 + v.y ^ 2)) ^ 2 = 1
    rw [div_pow, div_pow, div_add_div_same, hsq, div_self hne]

/-- Reflection across a unit-or-zero normal conserves the squared speed. -/
theorem bounce_one_speedSq (obj : GameObject) (n : Vector2D)
    (h : speedSq n = 1 ∨ n = ⟨0, 0⟩) :
    speedSq (bounce_one obj n).velocity = speedSq obj.velocity := by
  rcases h with h | h
  · have h' : n.x ^ 2 + n.y ^ 2 = 1 := h
    show (obj.velocity.x - 2 * (obj.velocity.x * n.x + obj.velocity.y * n.y) * n.x) ^ 2 +
        (obj.velocity.y - 2 * (obj.velocity.x * n.x + obj.velocity.y * n.y) * n.y) ^ 2 =
        obj.velocity.x ^ 2 + obj.velocity.y ^ 2
    linear_combination (4 * (obj.velocity.x * n.x + obj.velocity.y * n.y) ^ 2) * h'
  · subst h
    show (obj.velocity.x - 2 * (obj.velocity.x * 0 + obj.velocity.y * 0) * 0) ^ 2 +
        (obj.velocity.y - 2 * (obj.velocity.x * 0 + obj.velocity.y * 0) * 0) ^ 2 =
        obj.velocity.x ^ 2 + obj.velocity.y ^ 2
    ring

theorem bounce_one_fields (obj : GameObject) (n : Vector2D) :
    (bounce_one obj n).obj_type = obj.obj_type ∧ (bounce_one obj n).size = obj.size ∧
    (bounce_one obj n).color = obj.color ∧ (bounce_one obj n).is_static = obj.is_static ∧
    (bounce_one obj n).position = obj.position :=
  ⟨Eq.refl _, Eq.refl _, Eq.refl _, Eq.refl _, Eq.refl _⟩

theorem bodySim_bounce_off_static (o s : GameObject) (ho : o.is_static = false) :
    BodySim o (bounce_off_static o s) := by
  unfold bounce_off_static
  refine ⟨Eq.refl _, Eq.refl _, Eq.refl _, Eq.refl _, ?_, fun h => by rw [ho] at h; cases h⟩
  exact bounce_one_speedSq o _ (normalize_unit_or_zero _)

theorem bodySim_bounce_off_mobile_fst (o1 o2 : GameObject) (ho : o1.is_static = false) :
    BodySim o1 (bounce_off_mobile o1 o2).1 := by
  unfold bounce_off_mobile
  refine ⟨Eq.refl _, Eq.refl _, Eq.refl _, Eq.refl _, ?_, fun h => by rw [ho] at h; cases h⟩
  exact bounce_one_speedSq o1 _ (normalize_unit_or_zero _)

theorem bodySim_bounce_off_mobile_snd (o1 o2 : GameObject) (ho : o2.is_static = false) :
    BodySim o2 (bounce_off_mobile o1 o2).2 := by
  unfold bounce_off_mobile
  refine ⟨Eq.refl _, Eq.refl _, Eq.refl _, Eq.refl _, ?_, fun h => by rw [ho] at h; cases h⟩
  exact bounce_one_speedSq o2 _ (normalize_unit_or_zero _)

theorem resolve_collision_sim {objs : List GameObject} {i j : ℕ} {obj1 obj2 : GameObject}
    (hi : objs[i]? = some obj1) (hj : objs[j]? = some obj2) (hij : i ≠ j)
    (h1 : obj1.is_static = false) :
    ListSim objs (resolve_collision objs i j obj1 obj2) := by
  unfold resolve_collision
  by_cases h2 : obj2.is_static
  · rw [if_pos h2]
    exact listSim_set hi (bodySim_bounce_off_static obj1 obj2 h1)
  · rw [if_neg h2]
    have h2' : obj2.is_static = false := by simpa using h2
    have s1 : ListSim objs (objs.set i (bounce_off_mobile obj1 obj2).1) :=
      listSim_set hi (bodySim_bounce_off_mobile_fst obj1 obj2 h1)
    have hj' : (objs.set i (bounce_off_mobile obj1 obj2).1)[j]? = some obj2 := by
      rw [List.getElem?_set_ne hij]; exact hj
    exact s1.chain (listSim_set hj' (bodySim_bounce_off_mobile_snd obj1 obj2 h2'))

theorem collide_inner_sim (objs : List GameObject) (i j : ℕ)
    (hmob : ∀ b, objs[i]? = some b → b.is_static = false) :
    ListSim objs (collide_inner objs i j) := by
  unfold collide_inner
  by_cases hij : i = j
  · rw [if_pos hij]; exact ListSim.refl objs
  · rw [if_neg hij]
    rcases hgi : objs[i]? with _ | obj1
    · simp only [hgi]; exact ListSim.refl objs
    · rcases hgj : objs[j]? with _ | obj2
      · simp only [hgi, hgj]; exact ListSim.refl objs
      · simp only [hgi, hgj]
        by_cases hc : obj1.check_collision obj2
        · rw [if_pos hc]
          exact resolve_collision_sim hgi hgj hij (hmob obj1 hgi)
        · rw [if_neg hc]; exact ListSim.refl objs

theorem foldl_inner_sim (i : ℕ) :
    ∀ (js : List ℕ) (objs : List GameObject),
      (∀ b, objs[i]? = some b → b.is_static = false) →
      ListSim objs (js.foldl (fun acc j => collide_inner acc i j) objs) := by
  intro js
  induction js with
  | nil => exact fun objs _ => ListSim.refl objs
  | cons j js ih =>
    intro objs hmob
    have s1 : ListSim objs (collide_inner objs i j) := collide_inner_sim objs i j hmob
    exact s1.chain (ih (collide_inner objs i j) (s1.static_of hmob))

theorem collide_outer_sim (objs : List GameObject) (i : ℕ) :
    ListSim objs (collide_outer objs i) := by
  unfold collide_outer
  rcases hgi : objs[i]? with _ | obj1
  · simp only [hgi]; exact ListSim.refl objs
  · simp only [hgi]
    by_cases hs : obj1.is_static
    · rw [if_pos hs]; exact ListSim.refl objs
    · rw [if_neg hs]
      refine foldl_inner_sim i _ objs fun b hb => ?_
      rw [hgi] at hb
      injection hb with hb
      rw [← hb]
      simpa using hs

theorem handle_collisions_sim (e : PhysicsEngine) :
    ListSim e.objects e.handle_collisions.objects :=
  foldl_sim collide_outer_sim (List.range e.objects.length) e.objects

theorem integrate_sim (e : PhysicsEngine) : ListSim e.objects e.integrate.objects := by
  show ListSim e.objects (e.objects.map _)
  refine listSim_map fun b => ?_
  by_cases hs : b.is_static
  · rw [if_pos hs]; exact BodySim.self b
  · rw [if_neg hs]
    exact ⟨Eq.refl _, Eq.refl _, Eq.refl _, Eq.refl _, Eq.refl _,
      fun h => absurd h (by simpa using hs)⟩

theorem clamp_x_fields (g h : ℤ) (b : GameObject) :
    (clamp_x g h b).obj_type = b.obj_type ∧ (clamp_x g h b).size = b.size ∧
    (clamp_x g h b).color = b.color ∧ (clamp_x g h b).is_static = b.is_static ∧
    (clamp_x g h b).velocity.x ^ 2 = b.velocity.x ^ 2 ∧
    (clamp_x g h b).velocity.y = b.velocity.y := by
  unfold clamp_x
  split_ifs <;> simp [neg_sq, sq_abs]

theorem clamp_y_fields (g h : ℤ) (b : GameObject) :
    (clamp_y g h b).obj_type = b.obj_type ∧ (clamp_y g h b).size = b.size ∧
    (clamp_y g h b).color = b.color ∧ (clamp_y g h b).is_static = b.is_static ∧
    (clamp_y g h b).velocity.x = b.velocity.x ∧
    (clamp_y g h b).velocity.y ^ 2 = b.velocity.y ^ 2 := by
  unfold clamp_y
  split_ifs <;> simp [neg_sq, sq_abs]

theorem enforce_boundary_sim (g : ℤ) (b : GameObject) : BodySim b (enforce_boundary g b) := by
  unfold enforce_boundary
  by_cases hs : b.is_static
  · rw [if_pos hs]; exact BodySim.self b
  · rw [if_neg hs]
    have hs' : b.is_static = false := by simpa using hs
    obtain ⟨hx1, hx2, hx3, hx4, hx5, hx6⟩ := clamp_x_fields g (Int.fdiv b.size 2) b
    obtain ⟨hy1, hy2, hy3, hy4, hy5, hy6⟩ :=
      clamp_y_fields g (Int.fdiv b.size 2) (clamp_x g (Int.fdiv b.size 2) b)
    refine ⟨hy1.trans hx1, hy2.trans hx2, hy3.trans hx3, hy4.trans hx4, ?_,
      fun h => by rw [hs'] at h; cases h⟩
    show _ ^ 2 + _ ^ 2 = b.velocity.x ^ 2 + b.velocity.y ^ 2
    rw [hy5, hy6, hx5, hx6]

theorem enforce_boundaries_sim (e : PhysicsEngine) :
    ListSim e.objects e.enforce_boundaries.objects :=
  listSim_map (enforce_boundary_sim e.grid_size)

theorem update_sim (e : PhysicsEngine) : ListSim e.objects e.update.objects :=
  ((integrate_sim e).chain (handle_collisions_sim e.integrate)).chain
    (enforce_boundaries_sim e.integrate.handle_collisions)

theorem update_iterate_sim (n : ℕ) (e : PhysicsEngine) :
    ListSim e.objects ((PhysicsEngine.update)^[n] e).objects := by
  induction n with
  | zero => exact ListSim.refl e.objects
  | succ n ih =>
    rw [Function.iterate_succ_apply']
    exact ih.chain (update_sim ((PhysicsEngine.update)^[n] e))

theorem update_grid_size (e : PhysicsEngine) : e.update.grid_size = e.grid_size := rfl

theorem update_time_step (e : PhysicsEngine) : e.update.time_step = e.time_step + 1 := rfl

theorem update_iterate_time_step (n : ℕ) (e : PhysicsEngine) :
    ((PhysicsEngine.update)^[n] e).time_step = e.time_step + n := by
  induction n with
  | zero => rfl
  | succ n ih => rw [Function.iterate_succ_apply', update_time_step, ih]; omega

theorem update_iterate_grid_size (n : ℕ) (e : PhysicsEngine) :
    ((PhysicsEngine.update)^[n] e).grid_size = e.grid_size := by
  induction n with
  | zero => rfl
  | succ n ih => rw [Function.iterate_succ_apply', update_grid_size, ih]

theorem ListSim.mem_of {l l' : List GameObject} (h : ListSim l l') {b' : GameObject}
    (hb' : b' ∈ l') : ∃ b ∈ l, BodySim b b' := by
  obtain ⟨k, hk⟩ := List.mem_iff_getElem?.mp hb'
  obtain ⟨b, hb, hsim⟩ := h.get_total hk
  exact ⟨b, List.mem_iff_getElem?.mpr ⟨k, hb⟩, hsim⟩

/-- Evaluation of `pyInt` at an integer-valued argument. -/
theorem pyInt_intCast (n : ℤ) : pyInt ((n : ℤ) : ℝ) = n := by
  unfold pyInt
  split_ifs <;> simp

/-- Evaluation of `GameObject.get_bounds` for a body whose position
coordinates are integers. -/
theorem get_bounds_eval (o : GameObject) (px py h l t r bt : ℤ)
    (hx : o.position.x = (px : ℝ)) (hy : o.position.y = (py : ℝ))
    (hh : Int.fdiv o.size 2 = h)
    (hl : px - h = l) (ht : py - h = t) (hr : px + h = r) (hbt : py + h = bt) :
    o.get_bounds = ⟨l, t, r, bt⟩ := by
  unfold GameObject.get_bounds
  rw [hh, hx, hy]
  show (⟨pyInt ((px : ℝ) - (h : ℝ)), pyInt ((py : ℝ) - (h : ℝ)),
      pyInt ((px : ℝ) + (h : ℝ)), pyInt ((py : ℝ) + (h : ℝ))⟩ : Bounds) = _
  have e1 : (px : ℝ) - (h : ℝ) = ((px - h : ℤ) : ℝ) := by push_cast; ring
  have e2 : (py : ℝ) - (h : ℝ) = ((py - h : ℤ) : ℝ) := by push_cast; ring
  have e3 : (px : ℝ) + (h : ℝ) = ((px + h : ℤ) : ℝ) := by push_cast; ring
  have e4 : (py : ℝ) + (h : ℝ) = ((py + h : ℤ) : ℝ) := by push_cast; ring
  rw [e1, e2, e3, e4, pyInt_intCast, pyInt_intCast, pyInt_intCast, pyInt_intCast,
    hl, ht, hr, hbt]

/-- Evaluation of `Vector2D.normalize` when the squared length is a perfect
square. -/
theorem normalize_eval (a b r : ℝ) (hr : 0 < r) (h : a ^ 2 + b ^ 2 = r ^ 2) :
    Vector2D.normalize ⟨a, b⟩ = ⟨a / r, b / r⟩ := by
  simp only [Vector2D.normalize]
  have hs : Real.sqrt (a ^ 2 + b ^ 2) = r := by
    rw [h]
    exact Real.sqrt_sq hr.le
  rw [hs, if_neg hr.ne']

/-- Pointwise no-op characterization of `enforce_boundary` when the body is
strictly inside the arena on both axes. -/
theorem enforce_boundary_noop (g : ℤ) (o : GameObject)
    (hx1 : ¬(o.position.x - ((Int.fdiv o.size 2 : ℤ) : ℝ) < 0))
    (hx2 : ¬(o.position.x + ((Int.fdiv o.size 2 : ℤ) : ℝ) > (g : ℝ)))
    (hy1 : ¬(o.position.y - ((Int.fdiv o.size 2 : ℤ) : ℝ) < 0))
    (hy2 : ¬(o.position.y + ((Int.fdiv o.size 2 : ℤ) : ℝ) > (g : ℝ))) :
    enforce_boundary g o = o := by
  unfold enforce_boundary
  by_cases hs : o.is_static
  · rw [if_pos hs]
  · rw [if_neg hs]
    unfold clamp_x
    rw [if_neg hx1, if_neg hx2]
    unfold clamp_y
    rw [if_neg hy1, if_neg hy2]

theorem fdiv_30 : Int.fdiv (30 : ℤ) 2 = 15 := by decide

/-- C2 witness scenario: a single mobile body far from every boundary. -/
def witnessBody : GameObject :=
  ⟨ObjectType.red_block, ⟨100, 100⟩, ⟨1, 0⟩, 30, (255, 0, 0), false⟩

/-- C2/C3 witness engine holding only `witnessBody`. -/
def witnessEngine : PhysicsEngine := ⟨1000, [witnessBody], 0, 0, 10⟩

/-- C2: for every arena state (in particular every reachable one) and every
mobile body, the velocity magnitude after one `update` equals its magnitude
before: every reflection uses a unit (or zero) normal and the boundary clamp
only flips component signs. -/
theorem c2_speed_conservation (e : PhysicsEngine) (i : ℕ) (b : GameObject)
    (hb : e.objects[i]? = some b) (hmobile : b.is_static = false) :
    (e.update.objects[i]?).map (fun b' => magnitude b'.velocity) =
      some (magnitude b.velocity) := by
  obtain ⟨b', hb', hsim⟩ := (update_sim e).2 i b hb
  rw [hb', Option.map_some']
  unfold magnitude
  rw [hsim.2.2.2.2.1]

/-- C2 witness: the conservation theorem applied to the concrete one-body
engine. -/
theorem c2_speed_conservation_witness :
    (witnessEngine.update.objects[0]?).map (fun b' => magnitude b'.velocity) =
      some (magnitude witnessBody.velocity) :=
  c2_speed_conservation witnessEngine 0 witnessBody rfl rfl

/-- C4 witness body: the first wall created by `init_simulation` at grid size
1000. -/
def wallWitness : GameObject :=
  ⟨ObjectType.wall, ⟨((Int.fdiv 1000 2 : ℤ) : ℝ), ((Int.fdiv 20 2 : ℤ) : ℝ)⟩,
    ⟨0, 0⟩, 20, (0, 255, 0), true⟩

/-- C4: every static body of an initialized engine is returned bit-identically
(whole record, hence position and velocity) by any number of `update` calls,
and `update` leaves `grid_size` unchanged while stepping only the tick
counter. -/
theorem c4_static_invariance (gs : ℤ) (red_angle blue_angle : ℝ) (n i : ℕ)
    (b : GameObject)
    (hb : ((PhysicsEngine.new gs).init_simulation red_angle blue_angle).objects[i]? = some b)
    (hstatic : b.is_static = true) :
    ((PhysicsEngine.update)^[n]
        ((PhysicsEngine.new gs).init_simulation red_angle blue_angle)).objects[i]? = some b ∧
    ((PhysicsEngine.update)^[n]
        ((PhysicsEngine.new gs).init_simulation red_angle blue_angle)).grid_size = gs ∧
    ((PhysicsEngine.update)^[n]
        ((PhysicsEngine.new gs).init_simulation red_angle blue_angle)).time_step = n := by
  obtain ⟨b', hb', hsim⟩ := (update_iterate_sim n _).2 i b hb
  have hbb : b' = b := hsim.2.2.2.2.2 hstatic
  refine ⟨by rw [hb', hbb], (update_iterate_grid_size n _).trans rfl, ?_⟩
  rw [update_iterate_time_step]
  exact Nat.zero_add n

/-- C4 witness: one step at grid size 1000 keeps the first wall identical. -/
theorem c4_static_invariance_witness :
    ((PhysicsEngine.update)^[1]
        ((PhysicsEngine.new 1000).init_simulation 0 0)).objects[0]? = some wallWitness ∧
    ((PhysicsEngine.update)^[1]
        ((PhysicsEngine.new 1000).init_simulation 0 0)).grid_size = 1000 ∧
    ((PhysicsEngine.update)^[1]
        ((PhysicsEngine.new 1000).init_simulation 0 0)).time_step = 1 :=
  c4_static_invariance 1000 0 0 1 0 wallWitness rfl rfl

theorem clamp_x_contained (g h : ℤ) (o : GameObject)
    (hgh : (h : ℝ) ≤ (g : ℝ) - (h : ℝ)) :
    (h : ℝ) ≤ (clamp_x g h o).position.x ∧ (clamp_x g h o).position.x ≤ (g : ℝ) - (h : ℝ) := by
  unfold clamp_x
  split_ifs with h1 h2
  · exact ⟨le_refl _, hgh⟩
  · exact ⟨hgh, le_refl _⟩
  · constructor <;> [linarith [not_lt.mp h1]; linarith [not_lt.mp h2]]

theorem clamp_y_contained (g h : ℤ) (o : GameObject)
    (hgh : (h : ℝ) ≤ (g : ℝ) - (h : ℝ)) :
    (h : ℝ) ≤ (clamp_y g h o).position.y ∧ (clamp_y g h o).position.y ≤ (g : ℝ) - (h : ℝ) := by
  unfold clamp_y
  split_ifs with h1 h2
  · exact ⟨le_refl _, hgh⟩
  · exact ⟨hgh, le_refl _⟩
  · constructor <;> [linarith [not_lt.mp h1]; linarith [not_lt.mp h2]]

theorem clamp_y_position_x (g h : ℤ) (o : GameObject) :
    (clamp_y g h o).position.x = o.position.x := by
  unfold clamp_y
  split_ifs <;> rfl

/-- Containment of a single mobile body after `enforce_boundary`, under the
grid-size hypothesis. -/
theorem enforce_boundary_contained (g : ℤ) (b : GameObject) (hsize : b.size < g)
    (hm : b.is_static = false) :
    ((Int.fdiv b.size 2 : ℤ) : ℝ) ≤ (enforce_boundary g b).position.x ∧
    (enforce_boundary g b).position.x ≤ (g : ℝ) - ((Int.fdiv b.size 2 : ℤ) : ℝ) ∧
    ((Int.fdiv b.size 2 : ℤ) : ℝ) ≤ (enforce_boundary g b).position.y ∧
    (enforce_boundary g b).position.y ≤ (g : ℝ) - ((Int.fdiv b.size 2 : ℤ) : ℝ) := by
  have h2le : 2 * Int.fdiv b.size 2 ≤ b.size := by
    rw [Int.fdiv_eq_ediv b.size (by norm_num)]
    omega
  have hgh : ((Int.fdiv b.size 2 : ℤ) : ℝ) ≤ (g : ℝ) - ((Int.fdiv b.size 2 : ℤ) : ℝ) := by
    have hz : (2 * Int.fdiv b.size 2 : ℤ) < g := lt_of_le_of_lt h2le hsize
    have hz' : ((2 * Int.fdiv b.size 2 : ℤ) : ℝ) < (g : ℝ) := by exact_mod_cast hz
    push_cast at hz'
    linarith
  unfold enforce_boundary
  rw [if_neg (by simp [hm])]
  obtain ⟨hy1, hy2⟩ := clamp_y_contained g (Int.fdiv b.size 2)
    (clamp_x g (Int.fdiv b.size 2) b) hgh
  obtain ⟨hx1, hx2⟩ := clamp_x_contained g (Int.fdiv b.size 2) b hgh
  rw [clamp_y_position_x]
  exact ⟨hx1, hx2, hy1, hy2⟩

/-- C3: whenever `grid_size` exceeds every body size, every mobile body ends
the tick inside `[half_size, grid_size - half_size]` on both axes — the
boundary clamp is the last thing `update` does. -/
theorem c3_containment (e : PhysicsEngine)
    (hg : ∀ b ∈ e.objects, b.size < e.grid_size) :
    ∀ b' ∈ e.update.objects, b'.is_static = false →
      ((Int.fdiv b'.size 2 : ℤ) : ℝ) ≤ b'.position.x ∧
      b'.position.x ≤ (e.grid_size : ℝ) - ((Int.fdiv b'.size 2 : ℤ) : ℝ) ∧
      ((Int.fdiv b'.size 2 : ℤ) : ℝ) ≤ b'.position.y ∧
      b'.position.y ≤ (e.grid_size : ℝ) - ((Int.fdiv b'.size 2 : ℤ) : ℝ) := by
  intro b' hmem hmob
  have hmem' : b' ∈ (e.integrate.handle_collisions.objects).map
      (enforce_boundary e.grid_size) := hmem
  obtain ⟨b0, hb0, heq⟩ := List.mem_map.mp hmem'
  obtain ⟨a, ha, hsim⟩ :=
    ((integrate_sim e).chain (handle_collisions_sim e.integrate)).mem_of hb0
  have hsz : b0.size < e.grid_size := by
    rw [hsim.2.1]
    exact hg a ha
  have hm0 : b0.is_static = false := by
    have hse : (enforce_boundary e.grid_size b0).is_static = b0.is_static :=
      (enforce_boundary_sim e.grid_size b0).2.2.2.1
    rw [heq] at hse
    rw [← hse]
    exact hmob
  have hbs : b'.size = b0.size := by
    rw [← heq]
    exact (enforce_boundary_sim e.grid_size b0).2.1
  rw [hbs, ← heq]
  exact enforce_boundary_contained e.grid_size b0 hsz hm0

/-- State of the witness body after one update of `witnessEngine`. -/
def wBody1 : GameObject :=
  ⟨ObjectType.red_block, ⟨101, 100⟩, ⟨1, 0⟩, 30, (255, 0, 0), false⟩

theorem wIntegrate : witnessEngine.integrate = ⟨1000, [wBody1], 1, 0, 10⟩ := by
  have h : witnessEngine.integrate = ⟨1000,
      [{ witnessBody with position := witnessBody.position.add witnessBody.velocity }],
      1, 0, 10⟩ := rfl
  rw [h]
  simp only [witnessBody, wBody1, Vector2D.add, PhysicsEngine.mk.injEq,
    List.cons.injEq, GameObject.mk.injEq, Vector2D.mk.injEq]
  norm_num

theorem wHandle : PhysicsEngine.handle_collisions ⟨1000, [wBody1], 1, 0, 10⟩ =
    ⟨1000, [wBody1], 1, 0, 10⟩ := rfl

theorem wEnforce : PhysicsEngine.enforce_boundaries ⟨1000, [wBody1], 1, 0, 10⟩ =
    ⟨1000, [wBody1], 1, 0, 10⟩ := by
  have h : PhysicsEngine.enforce_boundaries ⟨1000, [wBody1], 1, 0, 10⟩ =
      ⟨1000, [enforce_boundary 1000 wBody1], 1, 0, 10⟩ := rfl
  have hA : enforce_boundary 1000 wBody1 = wBody1 :=
    enforce_boundary_noop 1000 wBody1 (by norm_num [wBody1, fdiv_30])
      (by norm_num [wBody1, fdiv_30]) (by norm_num [wBody1, fdiv_30])
      (by norm_num [wBody1, fdiv_30])
  rw [h, hA]

theorem wUpdate : witnessEngine.update = ⟨1000, [wBody1], 1, 0, 10⟩ := by
  show witnessEngine.integrate.handle_collisions.enforce_boundaries = _
  rw [wIntegrate, wHandle, wEnforce]

/-- C3 witness: the containment theorem applied to the concrete one-body
engine and the concrete post-step body. -/
theorem c3_containment_witness :
    ((Int.fdiv wBody1.size 2 : ℤ) : ℝ) ≤ wBody1.position.x ∧
    wBody1.position.x ≤ ((1000 : ℤ) : ℝ) - ((Int.fdiv wBody1.size 2 : ℤ) : ℝ) ∧
    ((Int.fdiv wBody1.size 2 : ℤ) : ℝ) ≤ wBody1.position.y ∧
    wBody1.position.y ≤ ((1000 : ℤ) : ℝ) - ((Int.fdiv wBody1.size 2 : ℤ) : ℝ) :=
  c3_containment witnessEngine (by
    intro b hb
    rw [show witnessEngine.objects = [witnessBody] from rfl, List.mem_singleton] at hb
    rw [hb]
    decide)
    wBody1
    (by rw [wUpdate]; exact List.mem_singleton.mpr (Eq.refl _))
    rfl

/-- C8: boxes touching exactly at an edge (right of `a` equals left of `b`),
with proper boxes and overlapping vertical extents, are reported as
colliding: the separation test is strict, so equality is not separation. -/
theorem c8_edge_touch_overlap (a b : GameObject)
    (hshare : a.get_bounds.right = b.get_bounds.left)
    (ha : a.get_bounds.left ≤ a.get_bounds.right)
    (hb : b.get_bounds.left ≤ b.get_bounds.right)
    (hv1 : a.get_bounds.top ≤ b.get_bounds.bottom)
    (hv2 : b.get_bounds.top ≤ a.get_bounds.bottom) :
    a.check_collision b = true := by
  simp only [GameObject.check_collision, gt_iff_lt, Bool.not_eq_eq_eq_not, Bool.not_true,
    Bool.or_eq_false_iff, decide_eq_false_iff_not, not_lt]
  omega

/-- C8 witness bodies: 30-sized squares at `(0,0)` and `(30,0)`, whose boxes
share the edge `x = 15`. -/
def edgeBodyA : GameObject := ⟨ObjectType.red_block, ⟨0, 0⟩, ⟨0, 0⟩, 30, (255, 0, 0), false⟩

/-- C8 witness partner body. -/
def edgeBodyB : GameObject := ⟨ObjectType.blue_block, ⟨30, 0⟩, ⟨0, 0⟩, 30, (0, 0, 255), false⟩

theorem edgeBodyA_bounds : edgeBodyA.get_bounds = ⟨-15, -15, 15, 15⟩ :=
  get_bounds_eval edgeBodyA 0 0 15 (-15) (-15) 15 15 (by norm_num [edgeBodyA])
    (by norm_num [edgeBodyA]) (by decide) (by decide) (by decide) (by decide) (by decide)

theorem edgeBodyB_bounds : edgeBodyB.get_bounds = ⟨15, -15, 45, 15⟩ :=
  get_bounds_eval edgeBodyB 30 0 15 15 (-15) 45 15 (by norm_num [edgeBodyB])
    (by norm_num [edgeBodyB]) (by decide) (by decide) (by decide) (by decide) (by decide)

/-- C8 witness: the two concrete edge-touching bodies collide. -/
theorem c8_edge_touch_overlap_witness : edgeBodyA.check_collision edgeBodyB = true :=
  c8_edge_touch_overlap edgeBodyA edgeBodyB
    (by rw [edgeBodyA_bounds, edgeBodyB_bounds])
    (by rw [edgeBodyA_bounds]; decide)
    (by rw [edgeBodyB_bounds]; decide)
    (by rw [edgeBodyA_bounds, edgeBodyB_bounds]; decide)
    (by rw [edgeBodyA_bounds, edgeBodyB_bounds]; decide)

/-- C6 counterexample: `PhysicsEngine.__init__` performs no validation, so a
non-positive `grid_size` is accepted and stored; the constructed engine does
not satisfy `grid_size > 0`. -/
theorem c6_no_validation_counterexample :
    (PhysicsEngine.new (-5)).grid_size = -5 ∧ ¬(0 < (PhysicsEngine.new (-5)).grid_size) :=
  ⟨rfl, by decide⟩

/-- C6 amended: construction never fails and performs no check; any
`grid_size` (including non-positive values) is stored verbatim, with the
documented `grid_size` bound left as an unchecked caller obligation. -/
theorem c6_no_validation_amended (gs : ℤ) :
    (PhysicsEngine.new gs).grid_size = gs ∧ (PhysicsEngine.new gs).objects = [] ∧
    (PhysicsEngine.new gs).time_step = 0 ∧ (PhysicsEngine.new gs).error_count = 0 :=
  ⟨rfl, rfl, rfl, rfl⟩


/-- C1 scenario: body A of the spec scenario. -/
def cBodyA : GameObject := ⟨ObjectType.red_block, ⟨495, 500⟩, ⟨1, 0⟩, 30, (255, 0, 0), false⟩

/-- C1 scenario: body B of the spec scenario. -/
def cBodyB : GameObject := ⟨ObjectType.blue_block, ⟨505, 500⟩, ⟨-1, 0⟩, 30, (0, 0, 255), false⟩

/-- C1 scenario engine: exactly the two overlapping mobile bodies. -/
def cEngine : PhysicsEngine := ⟨1000, [cBodyA, cBodyB], 0, 0, 10⟩

/-- State of body A after the integration phase. -/
def cA1 : GameObject := ⟨ObjectType.red_block, ⟨496, 500⟩, ⟨1, 0⟩, 30, (255, 0, 0), false⟩

/-- State of body B after the integration phase. -/
def cB1 : GameObject := ⟨ObjectType.blue_block, ⟨504, 500⟩, ⟨-1, 0⟩, 30, (0, 0, 255), false⟩

/-- State of body A after the first (ordered pair `(0,1)`) resolution. -/
def cA2 : GameObject := ⟨ObjectType.red_block, ⟨494, 500⟩, ⟨-1, 0⟩, 30, (255, 0, 0), false⟩

/-- State of body B after the first resolution. -/
def cB2 : GameObject := ⟨ObjectType.blue_block, ⟨506, 500⟩, ⟨1, 0⟩, 30, (0, 0, 255), false⟩

/-- State of body A after the second (ordered pair `(1,0)`) resolution. -/
def cA3 : GameObject := ⟨ObjectType.red_block, ⟨492, 500⟩, ⟨1, 0⟩, 30, (255, 0, 0), false⟩

/-- State of body B after the second resolution. -/
def cB3 : GameObject := ⟨ObjectType.blue_block, ⟨508, 500⟩, ⟨-1, 0⟩, 30, (0, 0, 255), false⟩

theorem cA1_bounds : cA1.get_bounds = ⟨481, 485, 511, 515⟩ :=
  get_bounds_eval cA1 496 500 15 481 485 511 515 (by norm_num [cA1]) (by norm_num [cA1])
    fdiv_30 (by decide) (by decide) (by decide) (by decide)

theorem cB1_bounds : cB1.get_bounds = ⟨489, 485, 519, 515⟩ :=
  get_bounds_eval cB1 504 500 15 489 485 519 515 (by norm_num [cB1]) (by norm_num [cB1])
    fdiv_30 (by decide) (by decide) (by decide) (by decide)

theorem cA2_bounds : cA2.get_bounds = ⟨479, 485, 509, 515⟩ :=
  get_bounds_eval cA2 494 500 15 479 485 509 515 (by norm_num [cA2]) (by norm_num [cA2])
    fdiv_30 (by decide) (by decide) (by decide) (by decide)

theorem cB2_bounds : cB2.get_bounds = ⟨491, 485, 521, 515⟩ :=
  get_bounds_eval cB2 506 500 15 491 485 521 515 (by norm_num [cB2]) (by norm_num [cB2])
    fdiv_30 (by decide) (by decide) (by decide) (by decide)

theorem cA3_bounds : cA3.get_bounds = ⟨477, 485, 507, 515⟩ :=
  get_bounds_eval cA3 492 500 15 477 485 507 515 (by norm_num [cA3]) (by norm_num [cA3])
    fdiv_30 (by decide) (by decide) (by decide) (by decide)

theorem cB3_bounds : cB3.get_bounds = ⟨493, 485, 523, 515⟩ :=
  get_bounds_eval cB3 508 500 15 493 485 523 515 (by norm_num [cB3]) (by norm_num [cB3])
    fdiv_30 (by decide) (by decide) (by decide) (by decide)

theorem cChk1 : cA1.check_collision cB1 = true := by
  simp only [GameObject.check_collision]
  rw [cA1_bounds, cB1_bounds]
  decide

theorem cChk2 : cB2.check_collision cA2 = true := by
  simp only [GameObject.check_collision]
  rw [cB2_bounds, cA2_bounds]
  decide

theorem cChk3 : cA3.check_collision cB3 = true := by
  simp only [GameObject.check_collision]
  rw [cA3_bounds, cB3_bounds]
  decide

theorem cBounce1 : bounce_off_mobile cA1 cB1 = (cA2, cB2) := by
  have hsub : cA1.position.sub cB1.position = ⟨-8, 0⟩ := by
    simp only [cA1, cB1, Vector2D.sub]
    norm_num
  have hn : Vector2D.normalize (cA1.position.sub cB1.position) = ⟨-1, 0⟩ := by
    rw [hsub, normalize_eval (-8) 0 8 (by norm_num) (by norm_num)]
    norm_num
  simp only [bounce_off_mobile, bounce_one]
  rw [hn]
  simp only [cA1, cB1, cA2, cB2, Vector2D.add, Vector2D.sub, Vector2D.mulScalar,
    Prod.mk.injEq, GameObject.mk.injEq, Vector2D.mk.injEq]
  norm_num

theorem cBounce2 : bounce_off_mobile cB2 cA2 = (cB3, cA3) := by
  have hsub : cB2.position.sub cA2.position = ⟨12, 0⟩ := by
    simp only [cB2, cA2, Vector2D.sub]
    norm_num
  have hn : Vector2D.normalize (cB2.position.sub cA2.position) = ⟨1, 0⟩ := by
    rw [hsub, normalize_eval 12 0 12 (by norm_num) (by norm_num)]
    norm_num
  simp only [bounce_off_mobile, bounce_one]
  rw [hn]
  simp only [cB2, cA2, cB3, cA3, Vector2D.add, Vector2D.sub, Vector2D.mulScalar,
    Prod.mk.injEq, GameObject.mk.injEq, Vector2D.mk.injEq]
  norm_num

theorem cOuter0 : collide_outer [cA1, cB1] 0 = [cA2, cB2] := by
  have h : collide_outer [cA1, cB1] 0 =
      (if cA1.check_collision cB1 = true then resolve_collision [cA1, cB1] 0 1 cA1 cB1
       else [cA1, cB1]) := rfl
  rw [h, if_pos cChk1]
  have h2 : resolve_collision [cA1, cB1] 0 1 cA1 cB1 =
      ([cA1, cB1].set 0 (bounce_off_mobile cA1 cB1).1).set 1 (bounce_off_mobile cA1 cB1).2 :=
    rfl
  rw [h2, cBounce1]
  rfl

theorem cOuter1 : collide_outer [cA2, cB2] 1 = [cA3, cB3] := by
  have h : collide_outer [cA2, cB2] 1 =
      (if cB2.check_collision cA2 = true then resolve_collision [cA2, cB2] 1 0 cB2 cA2
       else [cA2, cB2]) := rfl
  rw [h, if_pos cChk2]
  have h2 : resolve_collision [cA2, cB2] 1 0 cB2 cA2 =
      ([cA2, cB2].set 1 (bounce_off_mobile cB2 cA2).1).set 0 (bounce_off_mobile cB2 cA2).2 :=
    rfl
  rw [h2, cBounce2]
  rfl

theorem cIntegrate : cEngine.integrate = ⟨1000, [cA1, cB1], 1, 0, 10⟩ := by
  have h : cEngine.integrate = ⟨1000,
      [{ cBodyA with position := cBodyA.position.add cBodyA.velocity },
       { cBodyB with position := cBodyB.position.add cBodyB.velocity }], 1, 0, 10⟩ := rfl
  rw [h]
  simp only [cBodyA, cBodyB, cA1, cB1, Vector2D.add, PhysicsEngine.mk.injEq,
    List.cons.injEq, GameObject.mk.injEq, Vector2D.mk.injEq]
  norm_num

theorem cHandle : PhysicsEngine.handle_collisions ⟨1000, [cA1, cB1], 1, 0, 10⟩ =
    ⟨1000, [cA3, cB3], 1, 0, 10⟩ := by
  have h : PhysicsEngine.handle_collisions ⟨1000, [cA1, cB1], 1, 0, 10⟩ =
      ⟨1000, collide_outer (collide_outer [cA1, cB1] 0) 1, 1, 0, 10⟩ := rfl
  rw [h, cOuter0, cOuter1]

theorem cEnforce : PhysicsEngine.enforce_boundaries ⟨1000, [cA3, cB3], 1, 0, 10⟩ =
    ⟨1000, [cA3, cB3], 1, 0, 10⟩ := by
  have h : PhysicsEngine.enforce_boundaries ⟨1000, [cA3, cB3], 1, 0, 10⟩ =
      ⟨1000, [enforce_boundary 1000 cA3, enforce_boundary 1000 cB3], 1, 0, 10⟩ := rfl
  have hA : enforce_boundary 1000 cA3 = cA3 :=
    enforce_boundary_noop 1000 cA3 (by norm_num [cA3, fdiv_30]) (by norm_num [cA3, fdiv_30])
      (by norm_num [cA3, fdiv_30]) (by norm_num [cA3, fdiv_30])
  have hB : enforce_boundary 1000 cB3 = cB3 :=
    enforce_boundary_noop 1000 cB3 (by norm_num [cB3, fdiv_30]) (by norm_num [cB3, fdiv_30])
      (by norm_num [cB3, fdiv_30]) (by norm_num [cB3, fdiv_30])
  rw [h, hA, hB]

theorem cUpdate : cEngine.update = ⟨1000, [cA3, cB3], 1, 0, 10⟩ := by
  show cEngine.integrate.handle_collisions.enforce_boundaries = _
  rw [cIntegrate, cHandle, cEnforce]

/-- C1 counterexample: on the spec scenario (A at `(495,500)` velocity
`(1,0)`, B at `(505,500)` velocity `(-1,0)`, size 30, overlapping), one
`update` resolves the ordered pair twice, so both velocities are reflected
twice and end identical to their initial values — still pointing toward each
other (A sits left of B and moves right) — and the bodies still overlap. -/
theorem c1_two_mobile_counterexample :
    cEngine.update = ⟨1000, [cA3, cB3], 1, 0, 10⟩ ∧
    cA3.velocity = cBodyA.velocity ∧ cB3.velocity = cBodyB.velocity ∧
    cA3.position.x < cB3.position.x ∧ 0 < cA3.velocity.x ∧ cB3.velocity.x < 0 ∧
    cA3.check_collision cB3 = true := by
  refine ⟨cUpdate, rfl, rfl, ?_, ?_, ?_, cChk3⟩ <;> norm_num [cA3, cB3]

/-- C1 amended: on the spec scenario one `update` call applies the
mobile-mobile resolution twice (once per ordered pair), leaving each body's
velocity equal to its starting value, and moves the bodies to `(492,500)` and
`(508,500)`, which still overlap; the claimed outcome (velocities pointing
away and no overlap after one step) does not hold. -/
theorem c1_two_mobile_amended :
    cEngine.update.objects = [cA3, cB3] ∧
    cA3.position = ⟨492, 500⟩ ∧ cB3.position = ⟨508, 500⟩ ∧
    cA3.velocity = ⟨1, 0⟩ ∧ cB3.velocity = ⟨-1, 0⟩ ∧
    cEngine.update.time_step = 1 ∧
    cA3.check_collision cB3 = true := by
  refine ⟨?_, rfl, rfl, rfl, rfl, ?_, cChk3⟩
  · rw [cUpdate]
  · rw [cUpdate]

/-- C5 counterexample engine: grid size 500, where proportional scaling would
put the red block at `(50, 50)`. -/
def scaledEngine : PhysicsEngine := (PhysicsEngine.new 500).init_simulation 0 0

/-- C5 counterexample: at grid size 500 the red block still starts at the
literal `(100, 100)`, not at the proportionally scaled `(50, 50)`. -/
theorem c5_start_position_counterexample :
    (scaledEngine.objects[5]?).map GameObject.position = some ⟨100, 100⟩ ∧
    (scaledEngine.objects[5]?).map GameObject.position ≠ some ⟨50, 50⟩ := by
  have h1 : (scaledEngine.objects[5]?).map GameObject.position = some ⟨100, 100⟩ := rfl
  refine ⟨h1, ?_⟩
  rw [h1]
  intro h
  injection h with h
  have hx := congrArg Vector2D.x h
  norm_num at hx

/-- Magnitude of the velocity produced by `get_random_velocity` is always 1. -/
theorem get_random_velocity_magnitude (angle : ℝ) :
    magnitude (PhysicsEngine.get_random_velocity angle) = 1 := by
  unfold magnitude speedSq PhysicsEngine.get_random_velocity
  show Real.sqrt (Real.cos angle ^ 2 + Real.sin angle ^ 2) = 1
  rw [Real.cos_sq_add_sin_sq, Real.sqrt_one]

/-- C5 amended: the red block starts at the literal `(100, 100)` and the blue
block at the literal `(900, 900)` for every `grid_size` (no proportional
scaling), and each receives a unit-length velocity. -/
theorem c5_start_position_amended (gs : ℤ) (red_angle blue_angle : ℝ) :
    ((((PhysicsEngine.new gs).init_simulation red_angle blue_angle).objects[5]?).map
        (fun o => (o.position, magnitude o.velocity))) = some (⟨100, 100⟩, 1) ∧
    ((((PhysicsEngine.new gs).init_simulation red_angle blue_angle).objects[6]?).map
        (fun o => (o.position, magnitude o.velocity))) = some (⟨900, 900⟩, 1) := by
  constructor
  · have h5 : ((PhysicsEngine.new gs).init_simulation red_angle blue_angle).objects[5]? =
        some ⟨ObjectType.red_block, ⟨100, 100⟩,
          PhysicsEngine.get_random_velocity red_angle, 30, (255, 0, 0), false⟩ := rfl
    rw [h5, Option.map_some']
    show some (_, magnitude (PhysicsEngine.get_random_velocity red_angle)) = _
    rw [get_random_velocity_magnitude]
  · have h6 : ((PhysicsEngine.new gs).init_simulation red_angle blue_angle).objects[6]? =
        some ⟨ObjectType.blue_block, ⟨900, 900⟩,
          PhysicsEngine.get_random_velocity blue_angle, 30, (0, 0, 255), false⟩ := rfl
    rw [h6, Option.map_some']
    show some (_, magnitude (PhysicsEngine.get_random_velocity blue_angle)) = _
    rw [get_random_velocity_magnitude]

/-- C7 counterexample body: position `(1/2, 0)`, size 30, so the left bound
truncates `-14.5` toward zero to `-14`. -/
def fracBody : GameObject :=
  ⟨ObjectType.red_block, ⟨1 / 2, 0⟩, ⟨0, 0⟩, 30, (255, 0, 0), false⟩

/-- C7 counterexample: for a body at a non-integral position, `get_bounds`
does not equal `position - floor(size/2)`: the whole float expression is
truncated toward zero by `int(...)`, giving `-14` where the claimed formula
gives `-14.5`. -/
theorem c7_bounds_counterexample :
    fracBody.get_bounds.left = -14 ∧
    ((fracBody.get_bounds.left : ℤ) : ℝ) ≠
      fracBody.position.x - ((Int.fdiv fracBody.size 2 : ℤ) : ℝ) := by
  have h30 : Int.fdiv (30 : ℤ) 2 = 15 := by decide
  have hleft : fracBody.get_bounds.left = -14 := by
    show pyInt ((1 / 2 : ℝ) - ((Int.fdiv (30 : ℤ) 2 : ℤ) : ℝ)) = -14
    rw [h30]
    unfold pyInt
    rw [if_neg (by push_cast; norm_num), Int.ceil_eq_iff]
    constructor <;> [push_cast; push_cast] <;> norm_num
  refine ⟨hleft, ?_⟩
  rw [hleft]
  show ((-14 : ℤ) : ℝ) ≠ (1 / 2 : ℝ) - ((Int.fdiv (30 : ℤ) 2 : ℤ) : ℝ)
  rw [h30]
  push_cast
  norm_num

/-- C7 amended: `get_bounds` truncates each of the four float expressions
`position ± half_size` toward zero via `int(...)`; when the position
coordinates are integers this truncation is the identity and the bounds equal
`position ± floor(size/2)` exactly as the claim states. -/
theorem c7_bounds_amended (o : GameObject) (px py : ℤ)
    (hx : o.position.x = (px : ℝ)) (hy : o.position.y = (py : ℝ)) :
    ((o.get_bounds.left : ℤ) : ℝ) = o.position.x - ((Int.fdiv o.size 2 : ℤ) : ℝ) ∧
    ((o.get_bounds.top : ℤ) : ℝ) = o.position.y - ((Int.fdiv o.size 2 : ℤ) : ℝ) ∧
    ((o.get_bounds.right : ℤ) : ℝ) = o.position.x + ((Int.fdiv o.size 2 : ℤ) : ℝ) ∧
    ((o.get_bounds.bottom : ℤ) : ℝ) = o.position.y + ((Int.fdiv o.size 2 : ℤ) : ℝ) := by
  have hb : o.get_bounds = ⟨px - Int.fdiv o.size 2, py - Int.fdiv o.size 2,
      px + Int.fdiv o.size 2, py + Int.fdiv o.size 2⟩ :=
    get_bounds_eval o px py (Int.fdiv o.size 2) _ _ _ _ hx hy rfl rfl rfl rfl rfl
  rw [hb, hx, hy]
  refine ⟨?_, ?_, ?_, ?_⟩ <;> push_cast <;> ring

/-- C7 amended witness: a body at the integral position `(3, 4)`. -/
def intBody : GameObject :=
  ⟨ObjectType.blue_block, ⟨3, 4⟩, ⟨0, 0⟩, 30, (0, 0, 255), false⟩

/-- C7 witness: the amended bounds formula at the concrete integral body. -/
theorem c7_bounds_amended_witness :
    ((intBody.get_bounds.left : ℤ) : ℝ) =
      intBody.position.x - ((Int.fdiv intBody.size 2 : ℤ) : ℝ) ∧
    ((intBody.get_bounds.top : ℤ) : ℝ) =
      intBody.position.y - ((Int.fdiv intBody.size 2 : ℤ) : ℝ) ∧
    ((intBody.get_bounds.right : ℤ) : ℝ) =
      intBody.position.x + ((Int.fdiv intBody.size 2 : ℤ) : ℝ) ∧
    ((intBody.get_bounds.bottom : ℤ) : ℝ) =
      intBody.position.y + ((Int.fdiv intBody.size 2 : ℤ) : ℝ) :=
  c7_bounds_amended intBody 3 4 (by norm_num [intBody]) (by norm_num [intBody])

/-- C9 counterexample engines: identical tick, grid size and bodies, but
different error counters. -/
def stateEngineA : PhysicsEngine := ⟨1000, [], 0, 0, 10⟩

/-- C9 counterexample partner engine. -/
def stateEngineB : PhysicsEngine := ⟨1000, [], 0, 5, 10⟩

/-- C9 counterexample: `get_state` distinguishes two engines that agree on
tick count, grid size and every body, because the source also emits the
`error_count` field — the snapshot does not consist of only the claimed
fields. -/
theorem c9_snapshot_counterexample :
    stateEngineA.time_step = stateEngineB.time_step ∧
    stateEngineA.grid_size = stateEngineB.grid_size ∧
    stateEngineA.objects = stateEngineB.objects ∧
    stateEngineA.get_state ≠ stateEngineB.get_state := by
  refine ⟨rfl, rfl, rfl, fun h => ?_⟩
  have h5 := congrArg SimState.error_count h
  simp only [stateEngineA, stateEngineB, PhysicsEngine.get_state] at h5
  cases h5

/-- C9 amended: the snapshot consists of the tick count, the grid size, the
error count, and, per body, exactly the six fields kind (as its string
value), position, velocity, size, color and static flag; it is a pure
projection of the engine state. -/
theorem c9_snapshot_amended (e : PhysicsEngine) (i : ℕ) (o : GameObject) :
    e.get_state.time_step = e.time_step ∧
    e.get_state.grid_size = e.grid_size ∧
    e.get_state.error_count = e.error_count ∧
    e.get_state.objects.length = e.objects.length ∧
    (e.objects[i]? = some o →
      e.get_state.objects[i]? =
        some ⟨o.obj_type.value, o.position, o.velocity, o.size, o.color, o.is_static⟩) := by
  refine ⟨rfl, rfl, rfl, by simp [PhysicsEngine.get_state], fun h => ?_⟩
  show (e.objects.map objStateOf)[i]? = _
  rw [List.getElem?_map, h, Option.map_some']
  rfl

/-- C9 witness engine: one body with a nonzero tick and error count. -/
def snapshotEngine : PhysicsEngine := ⟨1000, [witnessBody], 2, 1, 10⟩

/-- C9 witness: the amended snapshot description at a concrete engine. -/
theorem c9_snapshot_amended_witness :
    snapshotEngine.get_state.objects[0]? =
      some ⟨witnessBody.obj_type.value, witnessBody.position, witnessBody.velocity,
        witnessBody.size, witnessBody.color, witnessBody.is_static⟩ :=
  (c9_snapshot_amended snapshotEngine 0 witnessBody).2.2.2.2 rfl

/-- C10: the pairwise overlap test is symmetric. -/
theorem c10_check_collision_symm (a b : GameObject) :
    a.check_collision b = b.check_collision a := by
  simp only [GameObject.check_collision, gt_iff_lt]
  rw [Bool.or_comm (decide (a.get_bounds.right < b.get_bounds.left))
      (decide (b.get_bounds.right < a.get_bounds.left)),
    Bool.or_assoc, Bool.or_comm (decide (a.get_bounds.bottom < b.get_bounds.top))
      (decide (b.get_bounds.bottom < a.get_bounds.top)),
    ← Bool.or_assoc]

end
